import Mathlib

/-!
Shallow embedding of `keras_core/saving/saving_api.py`: the save/load format
dispatchers (`save_model`, `load_model`) and the weights-loading dispatcher
(`load_weights`).  Paths are strings; the filesystem, the remote-path
predicate and the interactive overwrite prompt are explicit parameters;
side effects (copies, backend writes, prompts, warnings, file opens) are
returned as an ordered effect list alongside the dispatch result.
-/

namespace KerasCore

/-- File contents, abstracted to the one property the dispatcher probes:
whether `zipfile.is_zipfile` accepts the bytes (the zip probe is an external
collaborator; its verdict on a given byte string is a fixed attribute of
those bytes). -/
structure Bytes where
  isZipArchive : Bool
deriving DecidableEq, Repr

/-- The ambient filesystem and path metadata used by the dispatchers:
`files` maps a path to its bytes (`none` = unreadable/absent, which is also
what opening a remote URI with a local `open` yields), `isRemote` models
`file_utils.is_remote_path`, `isDir` models `file_utils.isdir`, and
`tempDir` models `saving_lib.get_temp_dir()`. -/
structure FS where
  files : String → Option Bytes
  isRemote : String → Bool
  isDir : String → Bool
  tempDir : String

/-- Python's `str.endswith`, on path strings. -/
def strEndsWith (s suff : String) : Bool :=
  suff.data.isSuffixOf s.data

/-- `zipfile.is_zipfile`: opens the file and probes its bytes; an unreadable
or absent file yields `false` (CPython catches `OSError` and returns
`False`). -/
def is_zipfile (fs : FS) (p : String) : Bool :=
  match fs.files p with
  | some b => b.isZipArchive
  | none => false

/-- `os.path.basename`: the component after the last slash (empty when the
path ends in a slash, the whole path when it has no slash). -/
def basename (p : String) : String :=
  ⟨(p.data.reverse.takeWhile (fun c => c ≠ '/')).reverse⟩

/-- `file_utils.copy(src, dst, overwrite=True)`: after the copy, `dst` holds
exactly the bytes of `src`. -/
def copyFile (fs : FS) (src dst : String) : FS :=
  { fs with files := fun q => if q = dst then fs.files src else fs.files q }

/-- Observable side effects of one dispatcher call, in program order. -/
inductive Effect where
  | copy (src dst : String)
  | writeArchive (model path : String)
  | writeLegacy (model path : String) (overwrite includeOptimizer : Bool)
  | promptOverwrite (path : String)
  | warnDeprecatedSaveFormat
  | warnLegacySave
  | openH5 (path : String)
deriving DecidableEq, Repr

/-- Terminal outcome of `save_model`.  `declinedOverwrite` is the plain
`return` taken when the interactive prompt answers no; the `err…`
constructors are the `ValueError`s raised by the dispatcher. -/
inductive SaveResult where
  | savedArchive (path : String)
  | savedLegacy (path : String) (overwrite includeOptimizer : Bool)
  | declinedOverwrite (path : String)
  | errDeprecatedSaveFormat (path : String)
  | errInvalidKwargs (keys : List String)
  | errUnsupported (path : String)
deriving DecidableEq, Repr

/-- Python truthiness of the popped `save_format` keyword (`False` when
absent, and an empty string is also falsy). -/
def pyTruthy : Option String → Bool
  | none => false
  | some s => !s.isEmpty

/-- The suffix dispatch of `save_model` (source lines 80-112): legacy
deprecation warning, then the `.keras` branch with its overwrite guard
(`os.path.exists` + `io_utils.ask_to_proceed_with_overwrite`), then the
legacy `.h5`/`.hdf5` branch, else the unsupported-extension error.  Note the
`.keras` archive write is `saving_lib.save_model(model, filepath)`: it does
not receive `include_optimizer`. -/
def saveDispatch (fs : FS) (promptAnswer : String → Bool) (model filepath : String)
    (overwrite includeOptimizer : Bool) : SaveResult × List Effect :=
  let warnEff : List Effect :=
    if strEndsWith filepath ".h5" || strEndsWith filepath ".hdf5" then
      [Effect.warnLegacySave]
    else []
  if strEndsWith filepath ".keras" then
    let fileExists := (fs.files filepath).isSome
    if fileExists && !overwrite then
      if !promptAnswer filepath then
        (SaveResult.declinedOverwrite filepath, warnEff ++ [Effect.promptOverwrite filepath])
      else
        (SaveResult.savedArchive filepath,
          warnEff ++ [Effect.promptOverwrite filepath, Effect.writeArchive model filepath])
    else
      (SaveResult.savedArchive filepath, warnEff ++ [Effect.writeArchive model filepath])
  else if strEndsWith filepath ".h5" || strEndsWith filepath ".hdf5" then
    (SaveResult.savedLegacy filepath overwrite includeOptimizer,
      warnEff ++ [Effect.writeLegacy model filepath overwrite includeOptimizer])
  else
    (SaveResult.errUnsupported filepath, warnEff)

/-- The `if kwargs: raise ValueError(...)` check (source lines 74-78),
followed by the suffix dispatch. -/
def saveAfterFormatCheck (fs : FS) (promptAnswer : String → Bool) (model filepath : String)
    (overwrite includeOptimizer : Bool) (extraKwargs : List String) :
    SaveResult × List Effect :=
  if extraKwargs.isEmpty then
    saveDispatch fs promptAnswer model filepath overwrite includeOptimizer
  else
    (SaveResult.errInvalidKwargs extraKwargs, [])

/-- `save_model(model, filepath, overwrite, **kwargs)` (source lines
21-112).  `includeOptimizer` and `saveFormat` are the popped
`include_optimizer` and `save_format` kwargs; `extraKwargs` are the
remaining keyword names.  When `save_format` is truthy it is accepted with a
deprecation warning iff the path ends in `.h5`, `.hdf5` or `.keras`
(the selector's value is never compared to the extension), else it is a
`ValueError`. -/
def save_model (fs : FS) (promptAnswer : String → Bool) (model filepath : String)
    (overwrite includeOptimizer : Bool) (saveFormat : Option String)
    (extraKwargs : List String) : SaveResult × List Effect :=
  if pyTruthy saveFormat then
    if strEndsWith filepath ".h5" || strEndsWith filepath ".hdf5"
        || strEndsWith filepath ".keras" then
      let r := saveAfterFormatCheck fs promptAnswer model filepath overwrite
        includeOptimizer extraKwargs
      (r.1, Effect.warnDeprecatedSaveFormat :: r.2)
    else
      (SaveResult.errDeprecatedSaveFormat filepath, [])
  else
    saveAfterFormatCheck fs promptAnswer model filepath overwrite includeOptimizer
      extraKwargs

/-- Terminal outcome of `load_model`: delegate to the archive reader
(`saving_lib.load_model`), delegate to the legacy reader
(`legacy_h5_format.load_model_from_hdf5`), or one of the two
`ValueError`s. -/
inductive LoadResult where
  | archiveLoad (path : String) (customObjects : Option String) (compile safeMode : Bool)
  | legacyLoad (path : String)
  | errCorruptKeras (path : String)
  | errUnsupported (path : String)
deriving DecidableEq, Repr

/-- The four-way dispatch at the end of `load_model` (source lines 176-198),
on the (possibly re-pointed) `filepath` and `is_keras_zip` flag. -/
def loadDispatch (filepath : String) (is_keras_zip : Bool) (customObjects : Option String)
    (compile safeMode : Bool) : LoadResult × List Effect :=
  if is_keras_zip then
    (LoadResult.archiveLoad filepath customObjects compile safeMode, [])
  else if strEndsWith filepath ".h5" || strEndsWith filepath ".hdf5" then
    (LoadResult.legacyLoad filepath, [])
  else if strEndsWith filepath ".keras" then
    (LoadResult.errCorruptKeras filepath, [])
  else
    (LoadResult.errUnsupported filepath, [])

/-- `load_model(filepath, custom_objects, compile, safe_mode)` (source lines
118-198): compute `is_keras_zip`; if the path is remote, not a directory and
not already a confirmed keras zip, copy it into the temp dir and, when the
staged copy probes as a zip, re-point `filepath` at the staged copy with
`is_keras_zip = True`; finally dispatch. -/
def load_model (fs : FS) (filepath : String) (customObjects : Option String)
    (compile safeMode : Bool) : LoadResult × List Effect :=
  let is_keras_zip := strEndsWith filepath ".keras" && is_zipfile fs filepath
  if fs.isRemote filepath && !fs.isDir filepath && !is_keras_zip then
    let local_path := fs.tempDir ++ "/" ++ basename filepath
    let fs' := copyFile fs filepath local_path
    let r :=
      if is_zipfile fs' local_path then
        loadDispatch local_path true customObjects compile safeMode
      else
        loadDispatch filepath is_keras_zip customObjects compile safeMode
    (r.1, Effect.copy filepath local_path :: r.2)
  else
    loadDispatch filepath is_keras_zip customObjects compile safeMode

/-- A group inside a legacy HDF5 file, reduced to what reconciliation
observes: the shapes of its stored parameter tensors, in file order. -/
structure H5Group where
  weights : List (List Nat)
deriving DecidableEq, Repr

/-- A legacy HDF5 file as `load_weights` inspects it: whether the
`layer_names` marker attribute is present at top level, whether a nested
`model_weights` group is present, and the top-level group itself. -/
structure H5File where
  hasLayerNamesAttr : Bool
  modelWeightsGroup : Option H5Group
  root : H5Group
deriving DecidableEq, Repr

/-- The nested-layout descent (source lines 223-224): if `layer_names` is
not in `f.attrs` and `model_weights` is in `f`, use the `model_weights`
group, else the file's own top level. -/
def selectGroup (f : H5File) : H5Group :=
  if !f.hasLayerNamesAttr && f.modelWeightsGroup.isSome then
    f.modelWeightsGroup.getD f.root
  else
    f.root

/-- Terminal outcome of `load_weights`: delegation to the archive
weights-only reader (which receives `skip_mismatch`), delegation to the
legacy by-name reader (which receives `skip_mismatch`), a completed
by-position reconciliation, or one of the raised errors. -/
inductive WeightsResult where
  | archiveWeights (path : String) (skipMismatch : Bool)
  | legacyByName (skipMismatch : Bool)
  | legacyApplied (newWeights : List (List Nat))
  | errCountMismatch (storedCount modelCount : Nat)
  | errShapeMismatch (idx : Nat)
  | errInvalidKwargs
  | errImport (msg : String)
  | errOpenFailure (path : String)
  | errUnsupported (path : String)
deriving DecidableEq, Repr

/-- The `ImportError` message raised when `h5py` is unavailable (source
lines 218-221). -/
def h5pyMissingMessage : String :=
  "Loading a H5 file requires `h5py` to be installed."

/-- Index of the first position where the two shape lists disagree. -/
def firstShapeMismatch : Nat → List (List Nat) → List (List Nat) → Option Nat
  | _, [], _ => none
  | _, _, [] => none
  | i, s :: ss, m :: ms =>
    if s ≠ m then some i else firstShapeMismatch (i + 1) ss ms

/-- Modelled from the spec: `legacy_h5_format.load_weights_from_hdf5_group`
is not under src/ (only its call site is).  Per the spec's ByPosition
discipline, parameters are paired strictly by the order they appear in the
model versus the order recorded in the file, and a count or shape mismatch
at any position is fatal when no skip flag is given — and this function's
call site passes it no skip flag.  On success every stored parameter
overwrites the model parameter at its position. -/
def load_weights_from_hdf5_group (stored modelWeights : List (List Nat)) : WeightsResult :=
  if stored.length ≠ modelWeights.length then
    WeightsResult.errCountMismatch stored.length modelWeights.length
  else
    match firstShapeMismatch 0 stored modelWeights with
    | some i => WeightsResult.errShapeMismatch i
    | none => WeightsResult.legacyApplied stored

/-- `load_weights(model, filepath, skip_mismatch, **kwargs)` (source lines
201-236).  `h5pyAvailable` models the import-time `h5py` capability probe;
`h5Contents` models `h5py.File(filepath, "r")` (`none` = open fails);
`byName` is the `by_name` kwarg (`none` when not passed) and `extraKwargs`
the remaining keyword names.  Branch order follows the source: `.keras`,
then `.weights.h5`, then `.h5`/`.hdf5`, else the unsupported error.  Only
the by-name legacy reader receives `skipMismatch`; the by-position branch
calls the reader with file group and model alone. -/
def load_weights (h5pyAvailable : Bool) (h5Contents : String → Option H5File)
    (modelWeights : List (List Nat)) (filepath : String) (skipMismatch : Bool)
    (byName : Option Bool) (extraKwargs : List String) : WeightsResult × List Effect :=
  if strEndsWith filepath ".keras" then
    if byName.isSome || !extraKwargs.isEmpty then (WeightsResult.errInvalidKwargs, [])
    else (WeightsResult.archiveWeights filepath skipMismatch, [])
  else if strEndsWith filepath ".weights.h5" then
    if byName.isSome || !extraKwargs.isEmpty then (WeightsResult.errInvalidKwargs, [])
    else (WeightsResult.archiveWeights filepath skipMismatch, [])
  else if strEndsWith filepath ".h5" || strEndsWith filepath ".hdf5" then
    if !extraKwargs.isEmpty then (WeightsResult.errInvalidKwargs, [])
    else if !h5pyAvailable then (WeightsResult.errImport h5pyMissingMessage, [])
    else
      match h5Contents filepath with
      | none => (WeightsResult.errOpenFailure filepath, [Effect.openH5 filepath])
      | some f =>
        if byName.getD false then
          (WeightsResult.legacyByName skipMismatch, [Effect.openH5 filepath])
        else
          (load_weights_from_hdf5_group (selectGroup f).weights modelWeights,
            [Effect.openH5 filepath])
  else
    (WeightsResult.errUnsupported filepath, [])

/-! ### Suffix facts about the extension checks -/

theorem strEndsWith_iff {s t : String} : strEndsWith s t = true ↔ t.data <:+ s.data := by
  simp [strEndsWith, List.isSuffixOf_iff_suffix]

theorem strEndsWith_of_suffix {a b s : String} (hab : a.data <:+ b.data)
    (h : strEndsWith s b = true) : strEndsWith s a = true :=
  strEndsWith_iff.mpr (hab.trans (strEndsWith_iff.mp h))

theorem strEndsWith_false_of_exclusive {a b s : String} (hab : ¬a.data <:+ b.data)
    (hba : ¬b.data <:+ a.data) (h : strEndsWith s a = true) :
    strEndsWith s b = false := by
  by_contra hb
  rw [Bool.not_eq_false] at hb
  rcases List.suffix_or_suffix_of_suffix (strEndsWith_iff.mp h) (strEndsWith_iff.mp hb)
    with hc | hc
  · exact hab hc
  · exact hba hc

theorem keras_not_h5 {s : String} (h : strEndsWith s ".keras" = true) :
    strEndsWith s ".h5" = false :=
  strEndsWith_false_of_exclusive (by decide) (by decide) h

theorem keras_not_hdf5 {s : String} (h : strEndsWith s ".keras" = true) :
    strEndsWith s ".hdf5" = false :=
  strEndsWith_false_of_exclusive (by decide) (by decide) h

theorem h5_not_keras {s : String} (h : strEndsWith s ".h5" = true) :
    strEndsWith s ".keras" = false :=
  strEndsWith_false_of_exclusive (by decide) (by decide) h

theorem hdf5_not_keras {s : String} (h : strEndsWith s ".hdf5" = true) :
    strEndsWith s ".keras" = false :=
  strEndsWith_false_of_exclusive (by decide) (by decide) h

theorem weights_h5_is_h5 {s : String} (h : strEndsWith s ".weights.h5" = true) :
    strEndsWith s ".h5" = true :=
  strEndsWith_of_suffix (by decide) h

theorem weights_h5_not_keras {s : String} (h : strEndsWith s ".weights.h5" = true) :
    strEndsWith s ".keras" = false :=
  h5_not_keras (weights_h5_is_h5 h)

/-- Copying `src` over `dst` makes the zip probe of `dst` agree with the
probe of `src`'s original bytes. -/
theorem is_zipfile_copyFile_self (fs : FS) (src dst : String) :
    is_zipfile (copyFile fs src dst) dst = is_zipfile fs src := by
  simp [is_zipfile, copyFile]

/-! ### Concrete fixtures for witnesses and counterexamples -/

/-- Bytes that fail the zip probe. -/
def rawBytes : Bytes := ⟨false⟩

/-- Bytes that pass the zip probe. -/
def zipBytes : Bytes := ⟨true⟩

/-- A purely local filesystem holding a non-zip `m.keras`, a non-zip `m.h5`
and a plain `notes.txt`. -/
def fsLocalPlain : FS :=
  { files := fun p =>
      if p = "m.keras" then some rawBytes
      else if p = "m.h5" then some rawBytes
      else if p = "notes.txt" then some rawBytes
      else none
    isRemote := fun _ => false
    isDir := fun _ => false
    tempDir := "/tmp/stage" }

/-- A filesystem with a remote `.h5` object whose bytes pass the zip probe. -/
def fsRemoteZipH5 : FS :=
  { files := fun p => if p = "gs://bucket/m.h5" then some zipBytes else none
    isRemote := fun p => p == "gs://bucket/m.h5"
    isDir := fun _ => false
    tempDir := "/tmp/stage" }

/-- A filesystem with a remote unsupported-suffix object whose bytes fail
the zip probe. -/
def fsRemotePlainTxt : FS :=
  { files := fun p => if p = "gs://bucket/notes.txt" then some rawBytes else none
    isRemote := fun p => p == "gs://bucket/notes.txt"
    isDir := fun _ => false
    tempDir := "/tmp/stage" }

/-- A legacy HDF5 file in the flat layout, holding a single stored parameter
of shape `[3]`. -/
def h5FlatFile : H5File := ⟨true, none, ⟨[[3]]⟩⟩

/-- The `h5py.File` opener for the fixture file `w.h5`. -/
def h5FixtureContents : String → Option H5File :=
  fun p => if p = "w.h5" then some h5FlatFile else none

/-! ### Claims -/

/-- C1: for every path whose suffix is `.keras` but whose bytes fail the zip
probe, `load_model` yields the corrupt/missing-archive error — in
particular it never delegates to the legacy HDF5 reader. -/
theorem c1_corrupt_keras_never_legacy (fs : FS) (p : String) (co : Option String)
    (c s : Bool) (hk : strEndsWith p ".keras" = true) (hz : is_zipfile fs p = false) :
    (load_model fs p co c s).1 = LoadResult.errCorruptKeras p := by
  have hh5 : strEndsWith p ".h5" = false := keras_not_h5 hk
  have hhdf5 : strEndsWith p ".hdf5" = false := keras_not_hdf5 hk
  unfold load_model
  simp only [hz, Bool.and_false]
  split
  · simp [is_zipfile_copyFile_self, hz, loadDispatch, hh5, hhdf5, hk]
  · simp [loadDispatch, hh5, hhdf5, hk]

/-- C1 witness at the fixture: `m.keras` holds non-zip bytes and loading it
reports the corrupt-archive error. -/
theorem c1_witness :
    strEndsWith "m.keras" ".keras" = true ∧
    is_zipfile fsLocalPlain "m.keras" = false ∧
    (load_model fsLocalPlain "m.keras" none true true).1 =
      LoadResult.errCorruptKeras "m.keras" :=
  ⟨by decide, by decide,
    c1_corrupt_keras_never_legacy fsLocalPlain "m.keras" none true true
      (by decide) (by decide)⟩

/-- C2 counterexample: a remote non-directory source with an unsupported
suffix is copied into the local temporary directory before `load_model`
raises the unsupported-format error, so the claim that no file is written
or copied before the error fails at this input. -/
theorem c2_counterexample :
    strEndsWith "gs://bucket/notes.txt" ".keras" = false ∧
    strEndsWith "gs://bucket/notes.txt" ".h5" = false ∧
    strEndsWith "gs://bucket/notes.txt" ".hdf5" = false ∧
    load_model fsRemotePlainTxt "gs://bucket/notes.txt" none true true =
      (LoadResult.errUnsupported "gs://bucket/notes.txt",
        [Effect.copy "gs://bucket/notes.txt" "/tmp/stage/notes.txt"]) := by
  decide

/-- C2 (amended): for unsupported suffixes, `save_model` raises the
unsupported-format error with no filesystem effect, and `load_model` does
likewise for a local or directory source; a remote non-directory source is
first staged (one copy into the temp dir) before the error — and when the
staged bytes probe as a zip archive the load is instead routed to the
modern-archive reader. -/
theorem c2_unsupported_suffix_effects (fs : FS) (pr : String → Bool)
    (m p : String) (ov inc : Bool) (co : Option String) (c s : Bool)
    (h1 : strEndsWith p ".keras" = false) (h2 : strEndsWith p ".h5" = false)
    (h3 : strEndsWith p ".hdf5" = false) :
    save_model fs pr m p ov inc none [] = (SaveResult.errUnsupported p, []) ∧
    (fs.isRemote p = false ∨ fs.isDir p = true →
      load_model fs p co c s = (LoadResult.errUnsupported p, [])) ∧
    (fs.isRemote p = true → fs.isDir p = false → is_zipfile fs p = false →
      load_model fs p co c s =
        (LoadResult.errUnsupported p,
          [Effect.copy p (fs.tempDir ++ "/" ++ basename p)])) ∧
    (fs.isRemote p = true → fs.isDir p = false → is_zipfile fs p = true →
      (load_model fs p co c s).1 =
        LoadResult.archiveLoad (fs.tempDir ++ "/" ++ basename p) co c s) := by
  refine ⟨?_, ?_, ?_, ?_⟩
  · simp [save_model, pyTruthy, saveAfterFormatCheck, saveDispatch, h1, h2, h3]
  · intro hl
    rcases hl with h | h <;>
      simp [load_model, loadDispatch, h1, h2, h3, h]
  · intro hrem hdir hz
    simp [load_model, loadDispatch, is_zipfile_copyFile_self,
      h1, h2, h3, hrem, hdir, hz]
  · intro hrem hdir hz
    simp [load_model, loadDispatch, is_zipfile_copyFile_self,
      h1, h2, h3, hrem, hdir, hz]

/-- C2 witness at the fixture: for the local `notes.txt`, both dispatchers
report the unsupported-format error with an empty effect list. -/
theorem c2_witness :
    strEndsWith "notes.txt" ".keras" = false ∧
    save_model fsLocalPlain (fun _ => true) "model" "notes.txt" true true none [] =
      (SaveResult.errUnsupported "notes.txt", []) ∧
    load_model fsLocalPlain "notes.txt" none true true =
      (LoadResult.errUnsupported "notes.txt", []) :=
  ⟨by decide,
    (c2_unsupported_suffix_effects fsLocalPlain (fun _ => true) "model" "notes.txt"
      true true none true true (by decide) (by decide) (by decide)).1,
    (c2_unsupported_suffix_effects fsLocalPlain (fun _ => true) "model" "notes.txt"
      true true none true true (by decide) (by decide) (by decide)).2.1
      (Or.inl (by decide))⟩

/-- C3 counterexample: a remote non-directory `.h5` source whose staged
bytes pass the zip probe is loaded by the modern-archive reader (at the
staged temp path), not by the legacy HDF5 reader — so the claim that a
legacy-suffixed load always delegates to the legacy reader, regardless of
local or remote, fails at this input. -/
theorem c3_counterexample :
    strEndsWith "gs://bucket/m.h5" ".h5" = true ∧
    fsRemoteZipH5.isRemote "gs://bucket/m.h5" = true ∧
    (load_model fsRemoteZipH5 "gs://bucket/m.h5" none true true).1 =
      LoadResult.archiveLoad "/tmp/stage/m.h5" none true true := by
  decide

/-- C3 (amended): a load whose source suffix is `.h5`/`.hdf5` delegates to
the legacy HDF5 reader whenever the source is local, or is a remote
directory, or its bytes fail the zip probe; the one exception is a remote
non-directory source whose staged copy probes as a zip archive, which is
routed to the modern-archive reader instead. -/
theorem c3_legacy_suffix_routes_to_legacy (fs : FS) (p : String) (co : Option String)
    (c s : Bool)
    (hs : strEndsWith p ".h5" = true ∨ strEndsWith p ".hdf5" = true)
    (hnr : fs.isRemote p = false ∨ fs.isDir p = true ∨ is_zipfile fs p = false) :
    (load_model fs p co c s).1 = LoadResult.legacyLoad p := by
  have hk : strEndsWith p ".keras" = false := by
    rcases hs with h | h
    · exact h5_not_keras h
    · exact hdf5_not_keras h
  have hd : (loadDispatch p false co c s).1 = LoadResult.legacyLoad p := by
    rcases hs with h | h <;> simp [loadDispatch, h]
  unfold load_model
  simp only [hk, Bool.false_and]
  rcases hnr with h | h | h
  · simpa [h] using hd
  · simpa [h] using hd
  · split
    · simpa [is_zipfile_copyFile_self, h] using hd
    · simpa using hd

/-- C3 witness at the fixture: loading the local `m.h5` delegates to the
legacy HDF5 reader. -/
theorem c3_witness :
    strEndsWith "m.h5" ".h5" = true ∧
    fsLocalPlain.isRemote "m.h5" = false ∧
    (load_model fsLocalPlain "m.h5" none true true).1 = LoadResult.legacyLoad "m.h5" :=
  ⟨by decide, by decide,
    c3_legacy_suffix_routes_to_legacy fsLocalPlain "m.h5" none true true
      (Or.inl (by decide)) (Or.inl (by decide))⟩

/-- C9: when a remote non-directory source is staged but the staged copy
fails the zip probe, the final dispatch runs on the original remote path
(the only recorded effect being the staging copy), not on the staged local
copy. -/
theorem c9_staged_nonzip_dispatches_original_path (fs : FS) (p : String)
    (co : Option String) (c s : Bool)
    (hrem : fs.isRemote p = true) (hdir : fs.isDir p = false)
    (hz : is_zipfile fs p = false) :
    load_model fs p co c s =
      ((loadDispatch p false co c s).1,
        Effect.copy p (fs.tempDir ++ "/" ++ basename p) ::
          (loadDispatch p false co c s).2) := by
  unfold load_model
  simp [hrem, hdir, hz, is_zipfile_copyFile_self, Bool.and_false]

/-- C9 witness at the fixture: the staged copy of the remote `notes.txt` is
not a zip, and the dispatch runs on the original remote path. -/
theorem c9_witness :
    fsRemotePlainTxt.isRemote "gs://bucket/notes.txt" = true ∧
    is_zipfile fsRemotePlainTxt "gs://bucket/notes.txt" = false ∧
    load_model fsRemotePlainTxt "gs://bucket/notes.txt" none true true =
      ((loadDispatch "gs://bucket/notes.txt" false none true true).1,
        Effect.copy "gs://bucket/notes.txt"
            (fsRemotePlainTxt.tempDir ++ "/" ++ basename "gs://bucket/notes.txt") ::
          (loadDispatch "gs://bucket/notes.txt" false none true true).2) :=
  ⟨by decide, by decide,
    c9_staged_nonzip_dispatches_original_path fsRemotePlainTxt "gs://bucket/notes.txt"
      none true true (by decide) (by decide) (by decide)⟩

/-- C5 counterexample: at a `.keras` destination the whole call — result
and effect list, including the archive write — is the same for
`includeOptimizerState = false` and `true`, and the archive write effect
carries only the model and the path; so the claim that the flag is
forwarded to (and honored by) the modern-archive write fails at this
input. -/
theorem c5_counterexample :
    save_model fsLocalPlain (fun _ => true) "model" "m.keras" true false none [] =
      save_model fsLocalPlain (fun _ => true) "model" "m.keras" true true none [] ∧
    (save_model fsLocalPlain (fun _ => true) "model" "m.keras" true false none []).2 =
      [Effect.writeArchive "model" "m.keras"] := by
  decide

/-- C5 (amended): `save_model` pops `includeOptimizerState` but forwards it
only to the legacy writer; for a `.keras` destination whose overwrite guard
grants proceed, the archive write is invoked with the model and path alone,
and the call's outcome is independent of the flag. -/
theorem c5_archive_write_drops_include_optimizer (fs : FS) (pr : String → Bool)
    (m p : String) (ov inc : Bool)
    (hk : strEndsWith p ".keras" = true)
    (hgrant : (!((fs.files p).isSome && !ov) || pr p) = true) :
    (save_model fs pr m p ov inc none []).1 = SaveResult.savedArchive p ∧
    Effect.writeArchive m p ∈ (save_model fs pr m p ov inc none []).2 ∧
    save_model fs pr m p ov inc none [] = save_model fs pr m p ov true none [] := by
  have hh5 : strEndsWith p ".h5" = false := keras_not_h5 hk
  have hhdf5 : strEndsWith p ".hdf5" = false := keras_not_hdf5 hk
  by_cases hfe : ((fs.files p).isSome && !ov) = true
  · have hpr : pr p = true := by
      rwa [hfe, Bool.not_true, Bool.false_or] at hgrant
    refine ⟨?_, ?_, ?_⟩ <;>
      simp [save_model, pyTruthy, saveAfterFormatCheck, saveDispatch,
        hk, hh5, hhdf5, hfe, hpr]
  · simp only [Bool.not_eq_true] at hfe
    refine ⟨?_, ?_, ?_⟩ <;>
      simp [save_model, pyTruthy, saveAfterFormatCheck, saveDispatch,
        hk, hh5, hhdf5, hfe]

/-- C5 witness at the fixture: saving to `m.keras` with `overwrite = true`
and the flag set to `false` still performs the archive write. -/
theorem c5_witness :
    strEndsWith "m.keras" ".keras" = true ∧
    (save_model fsLocalPlain (fun _ => true) "model" "m.keras" true false none []).1 =
      SaveResult.savedArchive "m.keras" :=
  ⟨by decide,
    (c5_archive_write_drops_include_optimizer fsLocalPlain (fun _ => true) "model"
      "m.keras" true false (by decide) (by decide)).1⟩

/-- C6 counterexample: the deprecated selector value `"h5"` disagrees with
the destination's real `.keras` extension, yet the request is accepted —
only the deprecation warning is emitted and the archive write proceeds —
so the claim that a disagreeing selector is a hard error fails at this
input. -/
theorem c6_counterexample :
    save_model fsLocalPlain (fun _ => true) "model" "m.keras" true true (some "h5") [] =
      (SaveResult.savedArchive "m.keras",
        [Effect.warnDeprecatedSaveFormat, Effect.writeArchive "model" "m.keras"]) := by
  decide

/-- C6 (amended): when the deprecated `saveFormat` selector is passed
(truthy), acceptance depends only on the destination's extension, never on
the selector's value: if the path ends in `.h5`, `.hdf5` or `.keras` the
call behaves exactly as without the selector with a deprecation warning
prepended; otherwise it is a hard error. -/
theorem c6_save_format_checks_extension_only (fs : FS) (pr : String → Bool)
    (m p : String) (ov inc : Bool) (v : String) (kw : List String)
    (hv : pyTruthy (some v) = true) :
    ((strEndsWith p ".h5" || strEndsWith p ".hdf5" || strEndsWith p ".keras") = true →
      save_model fs pr m p ov inc (some v) kw =
        ((save_model fs pr m p ov inc none kw).1,
          Effect.warnDeprecatedSaveFormat :: (save_model fs pr m p ov inc none kw).2)) ∧
    ((strEndsWith p ".h5" || strEndsWith p ".hdf5" || strEndsWith p ".keras") = false →
      save_model fs pr m p ov inc (some v) kw =
        (SaveResult.errDeprecatedSaveFormat p, [])) := by
  have hn : pyTruthy none = false := rfl
  constructor
  · intro hext
    simp [save_model, hv, hn, hext]
  · intro hext
    simp only [Bool.or_eq_false_iff] at hext
    simp [save_model, hv, hn, hext.1.1, hext.1.2, hext.2]

/-- C6 witness at the fixture: the selector value `"h5"` on the `.keras`
destination is accepted, matching the selector-free call plus the
warning. -/
theorem c6_witness :
    pyTruthy (some "h5") = true ∧
    save_model fsLocalPlain (fun _ => true) "model" "m.keras" true true (some "h5") [] =
      ((save_model fsLocalPlain (fun _ => true) "model" "m.keras" true true none []).1,
        Effect.warnDeprecatedSaveFormat ::
          (save_model fsLocalPlain (fun _ => true) "model" "m.keras" true true none []).2) :=
  ⟨by decide,
    (c6_save_format_checks_extension_only fsLocalPlain (fun _ => true) "model"
      "m.keras" true true "h5" [] (by decide)).1 (by decide)⟩

/-- C7: saving to an existing `.keras` destination with `overwrite = false`
and a prompt that answers no returns the declined no-op: the only effect is
the prompt itself — no write, no copy — so the destination's contents are
unchanged and nothing is raised. -/
theorem c7_declined_overwrite_is_noop (fs : FS) (pr : String → Bool)
    (m p : String) (inc : Bool)
    (hk : strEndsWith p ".keras" = true)
    (hex : (fs.files p).isSome = true)
    (hpr : pr p = false) :
    save_model fs pr m p false inc none [] =
      (SaveResult.declinedOverwrite p, [Effect.promptOverwrite p]) := by
  have hh5 : strEndsWith p ".h5" = false := keras_not_h5 hk
  have hhdf5 : strEndsWith p ".hdf5" = false := keras_not_hdf5 hk
  simp [save_model, pyTruthy, saveAfterFormatCheck, saveDispatch,
    hk, hh5, hhdf5, hex, hpr]

/-- C7 witness at the fixture: `m.keras` exists, the prompt declines, and
the call returns the no-op with only the prompt effect. -/
theorem c7_witness :
    (fsLocalPlain.files "m.keras").isSome = true ∧
    save_model fsLocalPlain (fun _ => false) "model" "m.keras" false true none [] =
      (SaveResult.declinedOverwrite "m.keras", [Effect.promptOverwrite "m.keras"]) :=
  ⟨by decide,
    c7_declined_overwrite_is_noop fsLocalPlain (fun _ => false) "model" "m.keras"
      true (by decide) (by decide) (by decide)⟩

/-- C10: a destination ending in `.weights.h5` also ends in `.h5`, so
`save_model` routes it to the legacy HDF5 writer — with the legacy-format
deprecation warning — and not to the archive backend. -/
theorem c10_weights_h5_saves_via_legacy_writer (fs : FS) (pr : String → Bool)
    (m p : String) (ov inc : Bool)
    (h : strEndsWith p ".weights.h5" = true) :
    save_model fs pr m p ov inc none [] =
      (SaveResult.savedLegacy p ov inc,
        [Effect.warnLegacySave, Effect.writeLegacy m p ov inc]) := by
  have hh5 : strEndsWith p ".h5" = true := weights_h5_is_h5 h
  have hk : strEndsWith p ".keras" = false := weights_h5_not_keras h
  simp [save_model, pyTruthy, saveAfterFormatCheck, saveDispatch, hh5, hk]

/-- C10 witness at the fixture: saving to `w.weights.h5` performs the
legacy write with the deprecation warning. -/
theorem c10_witness :
    strEndsWith "w.weights.h5" ".weights.h5" = true ∧
    save_model fsLocalPlain (fun _ => true) "model" "w.weights.h5" true false none [] =
      (SaveResult.savedLegacy "w.weights.h5" true false,
        [Effect.warnLegacySave, Effect.writeLegacy "model" "w.weights.h5" true false]) :=
  ⟨by decide,
    c10_weights_h5_saves_via_legacy_writer fsLocalPlain (fun _ => true) "model"
      "w.weights.h5" true false (by decide)⟩

/-- C4 counterexample: a by-position legacy weights load with
`skipMismatch = true` and one shape mismatch (stored `[3]` vs model `[2]`)
aborts with the shape-mismatch error instead of skipping that entry and
continuing — so the claim that `skipMismatch` makes a mismatched position
non-fatal in by-position mode fails at this input. -/
theorem c4_counterexample :
    load_weights true h5FixtureContents [[2]] "w.h5" true none [] =
      (WeightsResult.errShapeMismatch 0, [Effect.openH5 "w.h5"]) := by
  decide

/-- C4 (amended): in legacy by-position mode (`.h5`/`.hdf5` suffix,
`by_name` not passed), `load_weights` does not forward `skipMismatch` at
all: the outcome is identical for any two values of the flag, because the
by-position reader is invoked with the selected file group and the model
alone — so a count or shape mismatch aborts the load regardless of the
flag. -/
theorem c4_by_position_ignores_skip_mismatch (h5c : String → Option H5File)
    (modelW : List (List Nat)) (p : String) (s1 s2 : Bool) (f : H5File)
    (hs : strEndsWith p ".h5" = true ∨ strEndsWith p ".hdf5" = true)
    (hw : strEndsWith p ".weights.h5" = false)
    (hf : h5c p = some f) :
    load_weights true h5c modelW p s1 none [] = load_weights true h5c modelW p s2 none [] ∧
    (load_weights true h5c modelW p s1 none []).1 =
      load_weights_from_hdf5_group (selectGroup f).weights modelW := by
  have hk : strEndsWith p ".keras" = false := by
    rcases hs with h | h
    · exact h5_not_keras h
    · exact hdf5_not_keras h
  constructor <;> rcases hs with h | h <;> simp [load_weights, hk, hw, h, hf]

/-- C4 witness at the fixture: the by-position load of `w.h5` has the same
outcome for both values of the flag, and that outcome is the unflagged
by-position reconciliation. -/
theorem c4_witness :
    strEndsWith "w.h5" ".h5" = true ∧
    h5FixtureContents "w.h5" = some h5FlatFile ∧
    load_weights true h5FixtureContents [[2]] "w.h5" true none [] =
      load_weights true h5FixtureContents [[2]] "w.h5" false none [] ∧
    (load_weights true h5FixtureContents [[2]] "w.h5" true none []).1 =
      load_weights_from_hdf5_group (selectGroup h5FlatFile).weights [[2]] :=
  ⟨by decide, by decide,
    (c4_by_position_ignores_skip_mismatch h5FixtureContents [[2]] "w.h5" true false
      h5FlatFile (Or.inl (by decide)) (by decide) (by decide)).1,
    (c4_by_position_ignores_skip_mismatch h5FixtureContents [[2]] "w.h5" true false
      h5FlatFile (Or.inl (by decide)) (by decide) (by decide)).2⟩

/-- C8: a `load_weights` request on a legacy suffix (`.h5`/`.hdf5`, and not
the weights-only archive suffix `.weights.h5`) with `h5py` unavailable
fails with the distinct `ImportError` whose message names `h5py`, and with
an empty effect list — in particular no file is opened. -/
theorem c8_missing_h5py_distinct_error (h5c : String → Option H5File)
    (modelW : List (List Nat)) (p : String) (skip : Bool) (bn : Option Bool)
    (hs : strEndsWith p ".h5" = true ∨ strEndsWith p ".hdf5" = true)
    (hw : strEndsWith p ".weights.h5" = false) :
    load_weights false h5c modelW p skip bn [] =
      (WeightsResult.errImport h5pyMissingMessage, []) ∧
    "h5py".data <:+: h5pyMissingMessage.data := by
  have hk : strEndsWith p ".keras" = false := by
    rcases hs with h | h
    · exact h5_not_keras h
    · exact hdf5_not_keras h
  constructor
  · rcases hs with h | h <;> simp [load_weights, hk, hw, h]
  · decide

/-- C8 witness at the fixture: loading weights from `m.h5` without `h5py`
yields the missing-dependency error and no effects. -/
theorem c8_witness :
    strEndsWith "m.h5" ".h5" = true ∧
    load_weights false (fun _ => none) [[2]] "m.h5" false none [] =
      (WeightsResult.errImport h5pyMissingMessage, []) :=
  ⟨by decide,
    (c8_missing_h5py_distinct_error (fun _ => none) [[2]] "m.h5" false none
      (Or.inl (by decide)) (by decide)).1⟩

end KerasCore
